/-
Verification of the VPFS match/fare orchestration engine against its
natural-language specification.

Shallow embedding of the Python sources:
  - `src/FareSystem/fare_gen.py` / `src/VPFS/Faregen.py` (fare generator)
  - `src/FareSystem/router.py` (claim handler, position updates, lock usage)
  - `src/FareSystem/lab_tms.py` / `src/FareSystem/LabTMS.py` (team roster ops)
  - `src/FareSystem/auth.py` (authentication)
  - `src/VPFS/params.py` (operating modes)
Python floats are modelled as rationals (ℚ); the random number generator is
modelled as an explicit stream of draws; Python dicts keyed by team number are
modelled as association lists.  Modules of the repository that are not present
in the source tree (`fms.py`, `fare.py`, `team.py`, `fare_prob.py`) are
modelled from the specification; each such definition carries a doc comment
starting with `Modelled from the spec:`.
-/
import Mathlib

namespace VPFS

/-! ## Data model (spec §3, `utils.py` Point, `fare.py` Fare) -/

/-- A 2D coordinate with exact-value equality (spec §3 Point; Python floats
modelled as rationals). -/
structure Point where
  x : ℚ
  y : ℚ
deriving DecidableEq, Repr

/-- Squared Euclidean distance between two points.  The source
(`fare_gen.py` line 111) computes `dist = sqrt(dx^2 + dy^2)` and compares it
against the nonnegative bounds `min_dist`/`max_dist`; since `sqrt` is monotone
and both sides of each comparison are nonnegative, the source's comparisons
`dist < min` and `dist > max` are embedded as `dist2 < min^2` and
`dist2 > max^2`, keeping the embedding computable. -/
def Point.dist2 (a b : Point) : ℚ :=
  (a.x - b.x) ^ 2 + (a.y - b.y) ^ 2

/-- Fare categories (`fare.py` FareType, spec §3). -/
inductive FareType where
  | NORMAL
  | SUBSIDIZED
  | SENIOR
deriving DecidableEq, Repr

/-- Modelled from the spec: `fare_prob.py` (FareProbability) is not under
`src/`.  A mapping from FareType to a nonnegative weight, used only as
relative weights (spec §3).  The three fields follow the three positional
constructor arguments used in `fare_gen.py` lines 39-51. -/
structure FareProbability where
  normal : ℚ := 1
  subsidized : ℚ := 1
  senior : ℚ := 1
deriving DecidableEq, Repr

/-- Weight of one category in a distribution. -/
def FareProbability.weight (p : FareProbability) : FareType → ℚ
  | .NORMAL => p.normal
  | .SUBSIDIZED => p.subsidized
  | .SENIOR => p.senior

/-- Modelled from the spec: elementwise combination of two endpoint biases
(spec §4.1; the spec leaves sum vs. average open, summation is used here —
the choice does not affect any claim, as sampling is an oracle). -/
def FareProbability.merge (a b : FareProbability) : FareProbability :=
  ⟨a.normal + b.normal, a.subsidized + b.subsidized, a.senior + b.senior⟩

/-- Modelled from the spec: multiplies each category's weight by a
caller-supplied multiplier (spec §4.1 `reweight`; the in-place loop at
`fare_gen.py` lines 142-143). -/
def FareProbability.reweight (p : FareProbability) (mul : FareType → ℚ) :
    FareProbability :=
  ⟨p.normal * mul .NORMAL, p.subsidized * mul .SUBSIDIZED,
    p.senior * mul .SENIOR⟩

/-- A fare (spec §3; `fare.py` is not under `src/`, fields follow the spec
and the uses in `fare_gen.py`/`router.py`).  `claimedBy` holds the claiming
team's number. -/
structure Fare where
  src : Point
  dest : Point
  type : FareType
  isActive : Bool
  claimedBy : Option ℤ
deriving DecidableEq, Repr

/-- Modelled from the spec: the `Fare(src, dest, type)` constructor returns a
fare with `isActive = true` (spec §4.2 Output) and no claimant. -/
def Fare.new (src dest : Point) (type : FareType) : Fare :=
  ⟨src, dest, type, true, none⟩

/-! ## Fare generator (`fare_gen.py` / `Faregen.py`)

Both generator files implement the same algorithm and differ only in the
spawn-point list and the constants `DIST_MIN`/`TARGET_FARES`; the embedding
is parametric in those and each file's constants instantiate it. -/

/-- A spawn point: a fixed map location plus a fare-type bias
(`fare_gen.py` lines 23-31). -/
structure SpawnPoint where
  point : Point
  biases : FareProbability
deriving DecidableEq, Repr

/-- `DIST_MIN` of `src/FareSystem/fare_gen.py` (line 55). -/
def DIST_MIN : ℚ := 1 / 2

/-- `DIST_MAX` of `src/FareSystem/fare_gen.py` (line 56). -/
def DIST_MAX : ℚ := 999

/-- `TARGET_FARES` of `src/FareSystem/fare_gen.py` (line 59). -/
def TARGET_FARES : ℚ := 5

/-- `DIST_MIN` of `src/VPFS/Faregen.py` (line 51). -/
def VPFS_DIST_MIN : ℚ := 5 / 2

/-- `DIST_MAX` of `src/VPFS/Faregen.py` (line 52). -/
def VPFS_DIST_MAX : ℚ := 999

/-- `TARGET_FARES` of `src/VPFS/Faregen.py` (line 55). -/
def VPFS_TARGET_FARES : ℚ := 8

/-- The target composition of active fares (`fare_gen.py` lines 63-67),
parametric in `TARGET_FARES`. -/
def targetProbabilities (target_fares : ℚ) : FareType → ℚ
  | .SUBSIDIZED => 3 / 2 / target_fares
  | .SENIOR => 3 / 2 / target_fares
  | .NORMAL => 1 - (3 / 2 / target_fares + 3 / 2 / target_fares)

/-- The spawn-point list of `src/FareSystem/fare_gen.py` (lines 37-52). -/
def points : List SpawnPoint :=
  [ ⟨⟨0, 0⟩, ⟨0, 0, 1⟩⟩,
    ⟨⟨1, 1⟩, ⟨0, 1, 1⟩⟩,
    ⟨⟨2, 2⟩, ⟨0, 1, 1⟩⟩,
    ⟨⟨3, 3⟩, {}⟩,
    ⟨⟨4, 4⟩, {}⟩,
    ⟨⟨5, 5⟩, {}⟩,
    ⟨⟨6, 6⟩, {}⟩,
    ⟨⟨7, 7⟩, {}⟩,
    ⟨⟨8, 8⟩, {}⟩,
    ⟨⟨9, 9⟩, {}⟩,
    ⟨⟨10, 10⟩, {}⟩,
    ⟨⟨11, 11⟩, {}⟩ ]

/-- Endpoints of currently active fares, in traversal order
(`fare_gen.py` lines 87-98: for each active fare, `src` then `dest`). -/
def activeEndpoints (existingFares : List Fare) : List Point :=
  (existingFares.filter (·.isActive)).flatMap (fun f => [f.src, f.dest])

/-- Count of active fares of a given type, as a rational
(the `quantities` dict of `fare_gen.py` lines 88-99). -/
def quantities (existingFares : List Fare) (t : FareType) : ℚ :=
  ((existingFares.filter (fun f => f.isActive && f.type == t)).length : ℚ)

/-- Count of active fares (the `active_fares` counter of `fare_gen.py`
lines 93-96). -/
def active_fares (existingFares : List Fare) : ℕ :=
  (existingFares.filter (·.isActive)).length

/-- The rejection test of the retry loop (`fare_gen.py` lines 114-120):
identical points, distance out of bounds, or an endpoint already in use.
Distance comparisons are by squared distance (see `Point.dist2`). -/
def pairRejected (min_dist max_dist : ℚ) (existing : List Point)
    (p1 p2 : SpawnPoint) : Bool :=
  p1.point == p2.point
    || Point.dist2 p1.point p2.point > max_dist ^ 2
    || Point.dist2 p1.point p2.point < min_dist ^ 2
    || existing.contains p1.point
    || existing.contains p2.point

/-- The retry loop's attempt sequence: the loop (`fare_gen.py` lines 102-122)
runs while `ovf < 10 and not success`, so it examines at most the first 10
draws of the random stream. -/
def attemptList (draws : ℕ → SpawnPoint × SpawnPoint) :
    List (SpawnPoint × SpawnPoint) :=
  (List.range 10).map draws

/-- The per-category probability multiplier (`fare_gen.py` lines 126-133):
current ratio `value / max(active_fares, 1)` with 0.01 substituted when it is
zero, then `min(max(target / curr_ratio, 1/4), 10)`. -/
def prob_mul (target : FareType → ℚ) (existingFares : List Fare)
    (key : FareType) : ℚ :=
  let curr_ratio := quantities existingFares key /
    max ((active_fares existingFares : ℚ)) 1
  let curr_ratio := if curr_ratio = 0 then 1 / 100 else curr_ratio
  min (max (target key / curr_ratio) (1 / 4)) 10

/-- `generate_fare` (`fare_gen.py` lines 70-152, identically
`Faregen.py` lines 63-119), parametric in the configured distance bounds and
target composition.  The random draws of `random.choice(points)` are
modelled as an explicit stream `draws`; the random draw inside
`FareProbability.roll` is modelled as the oracle `roll`. -/
def generate_fare (min_dist max_dist : ℚ) (target : FareType → ℚ)
    (draws : ℕ → SpawnPoint × SpawnPoint) (roll : FareProbability → FareType)
    (existingFares : List Fare) : Option Fare :=
  match (attemptList draws).find? (fun pr =>
      !pairRejected min_dist max_dist (activeEndpoints existingFares)
        pr.1 pr.2) with
  | some (p1, p2) =>
      some (Fare.new p1.point p2.point
        (roll ((FareProbability.merge p1.biases p2.biases).reweight
          (prob_mul target existingFares))))
  | none => none

/-! ## Teams and the roster (spec §3 Team, §4.4 TeamRegistry;
`team.py` is not under `src/`, `lab_tms.py`/`LabTMS.py` are) -/

/-- A team (spec §3; field names follow the uses in `router.py`:
`number`, `money`, `karma`, `currentFare`, `pos`, `lastPosUpdate`,
`lastStatus`). -/
structure Team where
  number : ℤ
  money : ℚ
  karma : ℚ
  currentFare : Option ℕ
  pos : Point
  lastPosUpdate : ℚ
  lastStatus : ℚ
deriving DecidableEq, Repr

/-- Modelled from the spec: the `Team(number)` constructor of the missing
`team.py`, as used by `lab_tms.py` line 14 — a fresh team with zeroed
telemetry and no current fare. -/
def Team.new (number : ℤ) : Team :=
  ⟨number, 0, 0, none, ⟨0, 0⟩, 0, 0⟩

/-- Modelled from the spec: `Team.update_position` of the missing `team.py`
(spec §4.4 `update_position`: overwrites position and the last
position-update timestamp, called at `router.py` line 238 with the current
time as the timestamp). -/
def Team.update_position (t : Team) (p : Point) (now : ℚ) : Team :=
  { t with pos := p, lastPosUpdate := now }

/-- The team roster: the Python dict `fms.teams` keyed by team number,
modelled as an association list (a well-formed dict has no duplicate
keys — see `lab_roster_safety`). -/
abbrev Roster := List (ℤ × Team)

/-- The numbers present in the roster. -/
def rosterKeys (r : Roster) : List ℤ := r.map Prod.fst

/-- Membership test `team in fms.teams`. -/
def rosterHas (r : Roster) (n : ℤ) : Bool := (rosterKeys r).contains n

/-- HTTP status outcome of a roster operation (`lab_tms.py` returns 409/404
conflict/not-found codes and 200 on success). -/
inductive RosterOutcome where
  | ok
  | conflict
  | notFound
deriving DecidableEq, Repr

/-- `lab_add_team` (`lab_tms.py` lines 7-15, the LAB-mode body): conflict
if the number is already present, otherwise insert a fresh team. -/
def lab_add_team (r : Roster) (n : ℤ) : Roster × RosterOutcome :=
  if rosterHas r n then (r, .conflict)
  else (r ++ [(n, Team.new n)], .ok)

/-- `lab_remove_team` (`lab_tms.py` lines 17-25, the LAB-mode body):
not-found if the number is absent, otherwise delete its entry. -/
def lab_remove_team (r : Roster) (n : ℤ) : Roster × RosterOutcome :=
  if rosterHas r n then (r.eraseP (fun p => p.1 == n), .ok)
  else (r, .notFound)

/-- One roster-management call (spec §8: "all sequences of
`add_team`/`remove_team` calls"). -/
inductive RosterOp where
  | add (n : ℤ)
  | remove (n : ℤ)
deriving DecidableEq, Repr

/-- Apply one roster operation, discarding the HTTP outcome. -/
def applyRosterOp (r : Roster) : RosterOp → Roster
  | .add n => (lab_add_team r n).1
  | .remove n => (lab_remove_team r n).1

/-- Run a finite sequence of roster operations. -/
def runRosterOps (r : Roster) (ops : List RosterOp) : Roster :=
  ops.foldl applyRosterOp r

/-! ## Fare claiming (spec §4.3 FareLedger; `router.py` lines 117-146) -/

/-- Failure conditions of a claim (spec §4.3: out-of-range index, inactive
fare, already-claimed fare; `router.py` line 131 checks the range, the
missing `fare.py` checks the rest). -/
inductive ClaimError where
  | outOfRange
  | notActive
  | alreadyClaimed
deriving DecidableEq, Repr

/-- Modelled from the spec: `Fare.claim_fare(idx, team)` of the missing
`fare.py`, called at `router.py` line 132 (spec §4.3: fails if the fare is
not active or already claimed; otherwise assigns `claimedBy = team` and
records the fare as the team's current fare).  Returns the error (if any)
and the updated fare and team. -/
def Fare.claim_fare (f : Fare) (idx : ℕ) (t : Team) :
    Option ClaimError × Fare × Team :=
  if !f.isActive then (some .notActive, f, t)
  else if f.claimedBy.isSome then (some .alreadyClaimed, f, t)
  else (none, { f with claimedBy := some t.number },
    { t with currentFare := some idx })

/-- The ledger-level claim operation (`router.py` lines 130-139 around the
missing `fare.py` core): range-check the index, then delegate to
`Fare.claim_fare`, writing the updated fare back at the same index.
Returns the error (if any), the updated fare list and the updated team. -/
def claim_fare (fares : List Fare) (idx : ℕ) (t : Team) :
    Option ClaimError × List Fare × Team :=
  match fares[idx]? with
  | some f =>
      match f.claim_fare idx t with
      | (some e, _, _) => (some e, fares, t)
      | (none, f', t') => (none, fares.set idx f', t')
  | none => (some .outOfRange, fares, t)

/-! ## Match controller (spec §4.5; the `fms.py` module is not under
`src/` — only its callers `lab_tms.py` and `router.py` are) -/

/-- Modelled from the spec: the match state machine states (spec §3
MatchState). -/
inductive MatchState where
  | UNCONFIGURED
  | CONFIGURED
  | RUNNING
  | ENDED
deriving DecidableEq, Repr

/-- Modelled from the spec: the match timing state owned by the missing
`fms.py` (spec §3: "the configured match number, duration, computed end
time", read by `router.py` lines 57-59 as `matchNum`/`matchEndTime`). -/
structure Controller where
  state : MatchState
  matchNum : ℤ
  duration : ℚ
  matchEndTime : ℚ
deriving DecidableEq, Repr

/-- Modelled from the spec: `fms.config_match(number, duration)` (called at
`lab_tms.py` line 37; spec §4.5: valid from any state, always resets timing
and moves to CONFIGURED). -/
def config_match (_c : Controller) (number : ℤ) (duration : ℚ) : Controller :=
  ⟨.CONFIGURED, number, duration, 0⟩

/-- Modelled from the spec: `fms.start_match()` (called at `lab_tms.py`
line 44; spec §4.5: a no-op error unless CONFIGURED; on success end time =
now + duration and the state becomes RUNNING). -/
def start_match (c : Controller) (now : ℚ) : Controller × Bool :=
  if c.state = .CONFIGURED then
    ({ c with state := .RUNNING, matchEndTime := now + c.duration }, true)
  else (c, false)

/-- Modelled from the spec: the timing part of `fms.tick(now)` (spec §4.5:
if RUNNING and now ≥ end time, transition to ENDED; idempotent afterwards).
Fare expiry/replenishment act on the ledger, not on this timing state. -/
def tick (c : Controller) (now : ℚ) : Controller :=
  if c.state = .RUNNING ∧ c.matchEndTime ≤ now then
    { c with state := .ENDED }
  else c

/-! ## Batched position updates (`router.py` lines 209-242) -/

/-- A JSON scalar, as far as the `whereami_update` schema distinguishes
values (numbers are modelled as rationals). -/
inductive JsonVal where
  | num (q : ℚ)
  | str (s : String)
  | bool (b : Bool)
  | null
deriving DecidableEq, Repr

/-- A JSON object: field-name/value pairs. -/
abbrev JsonObj := List (String × JsonVal)

/-- Reads field `k` of an object when it is present and numeric. -/
def getNum (o : JsonObj) (k : String) : Option ℚ :=
  match o.lookup k with
  | some (.num q) => some q
  | _ => none

/-- One entry's check against `whereami_update_schema` (`router.py` lines
209-220): `team`, `x` and `y` are required and must be numbers. -/
def validEntry (o : JsonObj) : Bool :=
  (getNum o "team").isSome && (getNum o "x").isSome && (getNum o "y").isSome

/-- Membership of a JSON number among the roster's integer keys
(`team in fms.teams.keys()` at `router.py` line 237; a JSON number equal in
value to an integer key matches, as in Python). -/
def rosterHasNum (r : Roster) (q : ℚ) : Bool :=
  r.any (fun p => (p.1 : ℚ) == q)

/-- One iteration of the update loop (`router.py` lines 233-240): a
registered team's entry overwrites that team's position (with the current
time `now` as timestamp), an unregistered team's entry is logged and
skipped. -/
def applyEntry (teams : Roster) (now : ℚ) (o : JsonObj) : Roster :=
  match getNum o "team", getNum o "x", getNum o "y" with
  | some team, some x, some y =>
      if rosterHasNum teams team then
        teams.map (fun p =>
          if (p.1 : ℚ) == team then (p.1, p.2.update_position ⟨x, y⟩ now)
          else p)
      else teams
  | _, _, _ => teams

/-- The post-validation loop of `whereami_update`: entries applied
entry-by-entry in list order. -/
def applyBatch (teams : Roster) (now : ℚ) (entries : List JsonObj) : Roster :=
  entries.foldl (fun ts o => applyEntry ts now o) teams

/-- The `whereami_update` handler (`router.py` lines 222-242): the whole
payload is validated against the JSON schema first; a `ValidationError`
is caught before any entry is applied, so an invalid payload leaves the
roster untouched. -/
def whereami_update (teams : Roster) (now : ℚ) (payload : List JsonObj) :
    Roster :=
  if payload.all validEntry then applyBatch teams now payload
  else teams

/-! ## Authentication (`auth.py`, `params.py`) -/

/-- The operating modes (`params.py` lines 4-7). -/
inductive OperatingMode where
  | LAB
  | HOME
  | MATCH
deriving DecidableEq, Repr

/-- The string value of each mode (`params.py`: `OperatingMode(str, Enum)`
with values "Lab", "Home", "Match"). -/
def OperatingMode.value : OperatingMode → String
  | .LAB => "Lab"
  | .HOME => "Home"
  | .MATCH => "Match"

/-- The `Union[OperatingMode, str]` argument type of `authenticate`. -/
abbrev ModeArg := OperatingMode ⊕ String

/-- The auth-code table `_authCodes` (`auth.py` lines 12-14). -/
def authCodes : List (String × ℤ) := [("asdf", 7)]

/-- Python's `str.lower()`, modelled at the character-list level (so that
it evaluates inside the kernel; agrees with `String.toLower` on the ASCII
mode strings involved). -/
def strLower (s : String) : String := ⟨s.data.map Char.toLower⟩

/-- Digit-string value: `some` of the numeral's value when the (nonempty)
character list is all decimal digits. -/
def digitsVal (l : List Char) : Option ℕ :=
  if l ≠ [] ∧ l.all Char.isDigit then
    some (l.foldl (fun a c => a * 10 + (c.toNat - 48)) 0)
  else none

/-- Models Python's `int(str)` on its sign-and-digits core: an optional
sign followed by decimal digits; `none` when the string does not parse
(Python raises `ValueError`, caught at `auth.py` lines 31-35; the
surrounding-whitespace and underscore-grouping tolerance of `int` is not
modelled — no claim depends on it). -/
def pyInt (s : String) : Option ℤ :=
  match s.toList with
  | '-' :: rest => (digitsVal rest).map (fun n => -(n : ℤ))
  | '+' :: rest => (digitsVal rest).map (fun n => (n : ℤ))
  | l => (digitsVal l).map (fun n => (n : ℤ))

/-- The `is_match` test (`auth.py` lines 23-25).  `OperatingMode` is a
`str` subclass, so an enum argument also reaches the string comparison
`mode.lower() == "Match"` through its string value. -/
def is_match (mode : ModeArg) : Bool :=
  match mode with
  | .inl m => m == .MATCH || strLower m.value == "Match"
  | .inr s => strLower s == "Match"

/-- `authenticate` (`auth.py` lines 16-35): in match mode look the code up
in `_authCodes` (default -1), otherwise parse it as an integer team number
(-1 on a parse failure). -/
def authenticate (code : String) (mode : ModeArg) : ℤ :=
  if is_match mode then ((authCodes.lookup code).getD (-1))
  else ((pyInt code).getD (-1))

/-! ## Lock discipline (spec §5; `router.py`, `lab_tms.py`)

Each request handler is transcribed as the sequence of its
shared-state accesses and its acquisitions/releases of `fms.mutex`
(`with fms.mutex:` blocks), in source order. -/

/-- One event of a handler: acquiring/releasing `fms.mutex`, or an access
to the team roster (`fms.teams`), the fare ledger (`fms.fares`), or the
match timing state (`fms.matchNum`/`matchRunning`/`matchEndTime`). -/
inductive LockEv where
  | acq
  | rel
  | teamsAcc
  | faresAcc
  | timingAcc
deriving DecidableEq, Repr

/-- Checks that every shared-state access in the trace happens at positive
lock depth, starting from depth `d`. -/
def lockDepthOK : ℕ → List LockEv → Bool
  | _, [] => true
  | d, .acq :: es => lockDepthOK (d + 1) es
  | d, .rel :: es => lockDepthOK (d - 1) es
  | d, .teamsAcc :: es => decide (0 < d) && lockDepthOK d es
  | d, .faresAcc :: es => decide (0 < d) && lockDepthOK d es
  | d, .timingAcc :: es => decide (0 < d) && lockDepthOK d es

/-- A handler accesses shared state only while holding the lock. -/
def lockedAccesses (tr : List LockEv) : Bool := lockDepthOK 0 tr

/-- Number of lock acquisitions a handler performs. -/
def acquisitions (tr : List LockEv) : ℕ := tr.count .acq

/-- `serve_status` (`router.py` lines 39-62): the roster membership test
and `lastStatus` write at lines 50-51 happen before `with fms.mutex`;
the snapshot at lines 54-62 reads timing state and the roster inside it. -/
def serve_status_trace : List LockEv :=
  [.teamsAcc, .teamsAcc, .acq, .timingAcc, .teamsAcc, .rel]

/-- `serve_teams` (`router.py` lines 64-85): roster iteration inside the
lock. -/
def serve_teams_trace : List LockEv := [.acq, .teamsAcc, .rel]

/-- `serve_fares` (`router.py` lines 87-98): ledger iteration inside the
lock. -/
def serve_fares_trace : List LockEv := [.acq, .faresAcc, .rel]

/-- `claim_fare` (`router.py` lines 117-146): roster membership, ledger
length, claim and roster lookup, all inside the lock. -/
def claim_fare_trace : List LockEv :=
  [.acq, .teamsAcc, .faresAcc, .faresAcc, .teamsAcc, .rel]

/-- `current_fare` (`router.py` lines 148-169): roster and ledger reads
inside the lock. -/
def current_fare_trace : List LockEv := [.acq, .teamsAcc, .faresAcc, .rel]

/-- `whereami_get` (`router.py` lines 171-194): reads `fms.teams` with no
`with fms.mutex` block anywhere in the handler. -/
def whereami_get_trace : List LockEv := [.teamsAcc]

/-- `whereami_update` (`router.py` lines 222-242) applying a batch of `n`
entries: each entry performs at least a roster-membership access (line 237;
registered entries also write at line 238), and the handler contains no
`with fms.mutex` block at all. -/
def whereami_update_trace (n : ℕ) : List LockEv :=
  List.replicate n .teamsAcc

/-- `lab_add_team` (`lab_tms.py` lines 7-15): roster test and insert inside
the lock. -/
def lab_add_team_trace : List LockEv := [.acq, .teamsAcc, .rel]

/-- `lab_remove_team` (`lab_tms.py` lines 17-25): roster test and delete
inside the lock. -/
def lab_remove_team_trace : List LockEv := [.acq, .teamsAcc, .rel]

/-! ## Supporting lemmas -/

/-- `find?` returns the element at the first index whose test succeeds. -/
theorem find?_first {α : Type _} (p : α → Bool) :
    ∀ (l : List α) (i : ℕ) (hi : i < l.length),
      (∀ j (hj : j < i), p (l.get ⟨j, Nat.lt_trans hj hi⟩) = false) →
      p (l.get ⟨i, hi⟩) = true → l.find? p = some (l.get ⟨i, hi⟩)
  | a :: tl, 0, _, _, hp => by
    simp only [List.get] at hp
    simp [List.find?, hp]
  | a :: tl, i + 1, hi, hbefore, hp => by
    have ha : p a = false := hbefore 0 (Nat.succ_pos i)
    simp only [List.find?, ha]
    exact find?_first p tl i (Nat.lt_of_succ_lt_succ hi)
      (fun j hj => hbefore (j + 1) (Nat.succ_lt_succ hj)) hp

/-- `generate_fare` builds its fare from the first accepted draw: if every
draw before index `i` (with `i < 10`) is rejected and draw `i` is
accepted, the result is the fare assembled from draw `i`. -/
theorem generate_fare_first_accept (min_dist max_dist : ℚ)
    (target : FareType → ℚ) (draws : ℕ → SpawnPoint × SpawnPoint)
    (roll : FareProbability → FareType) (existingFares : List Fare)
    (i : ℕ) (hi : i < 10)
    (hbefore : ∀ j, j < i → pairRejected min_dist max_dist
      (activeEndpoints existingFares) (draws j).1 (draws j).2 = true)
    (hacc : pairRejected min_dist max_dist (activeEndpoints existingFares)
      (draws i).1 (draws i).2 = false) :
    generate_fare min_dist max_dist target draws roll existingFares
      = some (Fare.new (draws i).1.point (draws i).2.point
        (roll ((FareProbability.merge (draws i).1.biases
            (draws i).2.biases).reweight
          (prob_mul target existingFares)))) := by
  have hlen : (attemptList draws).length = 10 := by simp [attemptList]
  have hi' : i < (attemptList draws).length := by rw [hlen]; exact hi
  have hget : ∀ (j : ℕ) (hj : j < (attemptList draws).length),
      (attemptList draws).get ⟨j, hj⟩ = draws j := by
    intro j hj
    simp [attemptList, List.get_eq_getElem]
  have hfind := find?_first (fun pr =>
      !pairRejected min_dist max_dist (activeEndpoints existingFares)
        pr.1 pr.2) (attemptList draws) i hi'
    (fun j hj => by
      rw [hget]
      simp [hbefore j hj])
    (by
      rw [hget]
      simp [hacc])
  rw [hget i hi'] at hfind
  cases hdi : draws i with
  | mk a b =>
    rw [hdi] at hfind
    rw [generate_fare, hfind]

/-- If there are no active fares, there are no active fares of any type. -/
theorem quantities_eq_zero_of_no_active (fares : List Fare) (t : FareType)
    (h : active_fares fares = 0) : quantities fares t = 0 := by
  unfold active_fares at h
  rw [List.length_eq_zero] at h
  unfold quantities
  have : fares.filter (fun f => f.isActive && f.type == t)
      = (fares.filter (·.isActive)).filter (fun f => f.type == t) := by
    rw [List.filter_filter]
    congr 1
    funext f
    exact (Bool.and_comm _ _)
  rw [this, h]
  simp

/-- Membership in the active-endpoint list. -/
theorem mem_activeEndpoints (fares : List Fare) (q : Point) :
    q ∈ activeEndpoints fares ↔
      ∃ f ∈ fares, f.isActive = true ∧ (q = f.src ∨ q = f.dest) := by
  unfold activeEndpoints
  simp only [List.mem_flatMap, List.mem_filter, List.mem_cons,
    List.mem_singleton, List.not_mem_nil, or_false]
  constructor
  · rintro ⟨f, ⟨hf, hact⟩, hq⟩
    exact ⟨f, hf, hact, hq⟩
  · rintro ⟨f, hf, hact, hq⟩
    exact ⟨f, ⟨hf, hact⟩, hq⟩

/-- Looking a key up after the conditional bulk update used by
`applyEntry`: the value is transformed exactly when the key matches the
entry's team number. -/
theorem lookup_map_update (teams : Roster) (g : Team → Team) (q : ℚ)
    (m : ℤ) :
    (teams.map (fun p => if ((p.1 : ℚ) == q) = true then (p.1, g p.2) else p)).lookup m
      = if ((m : ℚ) == q) = true then (teams.lookup m).map g
        else teams.lookup m := by
  induction teams with
  | nil => simp [List.lookup]
  | cons hd tl ih =>
    obtain ⟨k, v⟩ := hd
    cases hm : (m == k) with
    | true =>
      have hmk : m = k := beq_iff_eq.mp hm
      subst hmk
      cases hk : ((m : ℚ) == q) with
      | true =>
        have hq : ((m : ℤ) : ℚ) = q := beq_iff_eq.mp hk
        simp [List.lookup_cons, hq]
      | false =>
        have hq : ¬(((m : ℤ) : ℚ) = q) := by simpa using hk
        simp [List.lookup_cons, hq]
    | false =>
      cases hk : ((k : ℚ) == q) with
      | true =>
        have hq : ((k : ℤ) : ℚ) = q := beq_iff_eq.mp hk
        simp [List.lookup_cons, hq, hm]
        simpa using ih
      | false =>
        have hq : ¬(((k : ℤ) : ℚ) = q) := by simpa using hk
        simp [List.lookup_cons, hq, hm]
        simpa using ih

/-! ## Claim theorems -/

/-- C4: for every fare list and every category, the reweighting multiplier
equals `clamp(target_share / current_share, 0.25, 10)`, where
`current_share` is the category's fraction of the currently active fares
with `0.01` substituted when that fraction is exactly zero; consequently
every multiplier lies in `[0.25, 10]`.  (In the embedding the fraction for
an empty active set is `0/0 = 0` in ℚ, matching the code's
`value / max(active_fares, 1) = 0` there.) -/
theorem prob_mul_clamped (target : FareType → ℚ) (fares : List Fare)
    (key : FareType) :
    prob_mul target fares key =
      min (max (target key /
        (if quantities fares key / (active_fares fares : ℚ) = 0
         then 1 / 100
         else quantities fares key / (active_fares fares : ℚ))) (1 / 4)) 10
    ∧ 1 / 4 ≤ prob_mul target fares key
    ∧ prob_mul target fares key ≤ 10 := by
  refine ⟨?_, ?_, ?_⟩
  · unfold prob_mul
    rcases Nat.eq_zero_or_pos (active_fares fares) with h0 | hpos
    · have hq := quantities_eq_zero_of_no_active fares key h0
      simp [h0, hq]
    · have hmax : max ((active_fares fares : ℚ)) 1 = (active_fares fares : ℚ) := by
        have : (1 : ℚ) ≤ (active_fares fares : ℚ) := by exact_mod_cast hpos
        exact max_eq_left this
      rw [hmax]
  · unfold prob_mul
    exact le_min (le_max_right _ _) (by norm_num)
  · exact min_le_right _ _

/-- C8 is violated by the code: the `whereami_update` handler applies a
position-update batch with no `fms.mutex` acquisition at all (so its roster
accesses are unlocked and its acquisition count is 0, not 1), and
`whereami_get` and the pre-lock part of `serve_status` also touch the
roster without holding the lock; the handlers that do lock (e.g. the claim
handler) satisfy the discipline, showing the trace model is not vacuous. -/
theorem whereami_update_unlocked :
    lockedAccesses (whereami_update_trace 1) = false
    ∧ acquisitions (whereami_update_trace 1) = 0
    ∧ lockedAccesses whereami_get_trace = false
    ∧ lockedAccesses serve_status_trace = false
    ∧ lockedAccesses claim_fare_trace = true
    ∧ acquisitions claim_fare_trace = 1 := by
  refine ⟨rfl, rfl, rfl, rfl, rfl, rfl⟩

/-- C5: from any controller state, `configure_match(7, 120)` followed by
`start_match()` at time `t` reaches RUNNING with absolute end time
`t + 120`; a tick at any time at or past the end time moves to ENDED, and
any further tick leaves the ENDED controller completely unchanged. -/
theorem configure_start_tick (c : Controller) (t now1 now2 : ℚ)
    (h : t + 120 ≤ now1) :
    (start_match (config_match c 7 120) t).2 = true
    ∧ (start_match (config_match c 7 120) t).1.state = .RUNNING
    ∧ (start_match (config_match c 7 120) t).1.matchEndTime = t + 120
    ∧ (tick (start_match (config_match c 7 120) t).1 now1).state = .ENDED
    ∧ tick (tick (start_match (config_match c 7 120) t).1 now1) now2
        = tick (start_match (config_match c 7 120) t).1 now1 := by
  simp [config_match, start_match, tick, h]

/-- Witness for C5 at a concrete controller and concrete times. -/
theorem configure_start_tick_witness :
    (start_match (config_match ⟨.UNCONFIGURED, 0, 0, 0⟩ 7 120) 0).2 = true
    ∧ (start_match (config_match ⟨.UNCONFIGURED, 0, 0, 0⟩ 7 120) 0).1.state
        = .RUNNING
    ∧ (start_match (config_match ⟨.UNCONFIGURED, 0, 0, 0⟩ 7 120) 0).1.matchEndTime
        = 0 + 120
    ∧ (tick (start_match (config_match ⟨.UNCONFIGURED, 0, 0, 0⟩ 7 120) 0).1
        121).state = .ENDED
    ∧ tick (tick (start_match (config_match ⟨.UNCONFIGURED, 0, 0, 0⟩ 7 120) 0).1
          121) 999
        = tick (start_match (config_match ⟨.UNCONFIGURED, 0, 0, 0⟩ 7 120) 0).1
          121 :=
  configure_start_tick ⟨.UNCONFIGURED, 0, 0, 0⟩ 0 121 999 (by norm_num)

/-- One roster-management step keeps the team numbers duplicate-free. -/
theorem applyRosterOp_nodup (r : Roster) (op : RosterOp)
    (h : (rosterKeys r).Nodup) : (rosterKeys (applyRosterOp r op)).Nodup := by
  cases op with
  | add k =>
    by_cases hk : rosterHas r k = true
    · simpa [applyRosterOp, lab_add_team, hk] using h
    · have hmem : k ∉ rosterKeys r := by
        simpa [rosterHas, List.contains] using hk
      have hstep : applyRosterOp r (.add k) = r ++ [(k, Team.new k)] := by
        simp [applyRosterOp, lab_add_team, hk]
      have hkeys : rosterKeys (r ++ [(k, Team.new k)])
          = rosterKeys r ++ [k] := by
        simp [rosterKeys]
      rw [hstep, hkeys, List.nodup_append]
      refine ⟨h, List.nodup_singleton _, ?_⟩
      intro x hx hxk
      rw [List.mem_singleton] at hxk
      subst hxk
      exact hmem hx
  | remove k =>
    by_cases hk : rosterHas r k = true
    · have hsub : List.Sublist (applyRosterOp r (.remove k)) r := by
        simp only [applyRosterOp, lab_remove_team, hk, if_true]
        exact List.eraseP_sublist r
      exact (hsub.map Prod.fst).nodup h
    · simpa [applyRosterOp, lab_remove_team, hk] using h

/-- Any sequence of roster-management calls keeps the team numbers
duplicate-free. -/
theorem runRosterOps_nodup :
    ∀ (ops : List RosterOp) (r : Roster), (rosterKeys r).Nodup →
      (rosterKeys (runRosterOps r ops)).Nodup
  | [], _, h => h
  | op :: rest, r, h =>
    runRosterOps_nodup rest (applyRosterOp r op) (applyRosterOp_nodup r op h)

/-- C6: starting from any duplicate-free roster (the Python dict cannot
hold duplicate keys), any finite sequence of `add_team`/`remove_team`
calls leaves the roster duplicate-free; adding a present number reports a
conflict and leaves the roster unchanged; removing an absent number
reports not-found and leaves the roster unchanged. -/
theorem roster_no_duplicates (r : Roster) (ops : List RosterOp) (n : ℤ)
    (h : (rosterKeys r).Nodup) :
    (rosterKeys (runRosterOps r ops)).Nodup
    ∧ (rosterHas r n = true → lab_add_team r n = (r, .conflict))
    ∧ (rosterHas r n = false → lab_remove_team r n = (r, .notFound)) := by
  refine ⟨runRosterOps_nodup ops r h, ?_, ?_⟩
  · intro hn
    simp [lab_add_team, hn]
  · intro hn
    simp [lab_remove_team, hn]

/-- Witness for C6 at a concrete roster and call sequence. -/
theorem roster_no_duplicates_witness :
    (rosterKeys (runRosterOps [(5, Team.new 5)]
        [.add 5, .add 9, .remove 4, .remove 9])).Nodup
    ∧ (rosterHas [(5, Team.new 5)] 5 = true →
        lab_add_team [(5, Team.new 5)] 5 = ([(5, Team.new 5)], .conflict))
    ∧ (rosterHas [(5, Team.new 5)] 5 = false →
        lab_remove_team [(5, Team.new 5)] 5 = ([(5, Team.new 5)], .notFound)) :=
  roster_no_duplicates [(5, Team.new 5)] [.add 5, .add 9, .remove 4, .remove 9]
    5 (by decide)

/-- C9: `authenticate` is total (it never raises — parse failure is caught
and becomes -1): in MATCH mode it returns the team number mapped to the
code in the fixed table `_authCodes` (-1 when the code is absent), and in
every other operating mode it parses the code directly as an integer team
number (-1 when parsing fails). -/
theorem authenticate_resolves (code : String) (m : OperatingMode) :
    (m = .MATCH →
      authenticate code (.inl m) = (if code = "asdf" then 7 else -1))
    ∧ (m ≠ .MATCH →
      authenticate code (.inl m) = ((pyInt code).getD (-1))
      ∧ (pyInt code = none → authenticate code (.inl m) = -1)) := by
  constructor
  · rintro rfl
    have htrue : is_match (.inl .MATCH) = true := rfl
    simp only [authenticate, htrue, if_true]
    unfold authCodes
    cases hc : (code == "asdf") with
    | true =>
      have hce : code = "asdf" := beq_iff_eq.mp hc
      simp [List.lookup_cons, hce]
    | false =>
      have hce : ¬(code = "asdf") := by simpa using hc
      simp [List.lookup_cons, hc, hce]
  · intro hm
    have hfalse : is_match (.inl m) = false := by
      cases m with
      | LAB => decide
      | HOME => decide
      | MATCH => exact absurd rfl hm
    refine ⟨by simp [authenticate, hfalse], ?_⟩
    intro hp
    simp [authenticate, hfalse, hp]

/-- Witness for C9: the one valid match code resolves to team 7, and an
unparsable code in LAB mode resolves to the sentinel -1. -/
theorem authenticate_resolves_witness :
    authenticate "asdf" (.inl .MATCH) = (if "asdf" = "asdf" then 7 else -1)
    ∧ authenticate "not a number" (.inl .LAB) = -1 :=
  ⟨(authenticate_resolves "asdf" .MATCH).1 rfl,
    ((authenticate_resolves "not a number" .LAB).2 (by decide)).2 (by decide)⟩

/-- C10: if any entry of a batched position-update payload fails the JSON
schema validation (missing `team`/`x`/`y` field or a non-numeric value),
the whole batch is discarded atomically: the roster — including the teams
named by well-formed entries of the same batch — is unchanged, and the
handler returns normally. -/
theorem invalid_batch_discarded (teams : Roster) (now : ℚ)
    (payload : List JsonObj) (h : ∃ o ∈ payload, validEntry o = false) :
    whereami_update teams now payload = teams := by
  unfold whereami_update
  rcases h with ⟨o, ho, hv⟩
  rw [if_neg]
  intro hall
  have := List.all_eq_true.mp hall o ho
  rw [hv] at this
  exact Bool.false_ne_true this

/-- Witness for C10: a batch whose first entry is well-formed for a
registered team and whose second entry lacks `x`/`y` leaves the roster
(and in particular team 99) unchanged. -/
theorem invalid_batch_discarded_witness :
    whereami_update [(99, Team.new 99)] 5
      [[("team", .num 99), ("x", .num 1), ("y", .num 2)],
        [("team", .num 0)]] = [(99, Team.new 99)] :=
  invalid_batch_discarded [(99, Team.new 99)] 5
    [[("team", .num 99), ("x", .num 1), ("y", .num 2)], [("team", .num 0)]]
    ⟨[("team", .num 0)], List.Mem.tail _ (List.Mem.head _), rfl⟩

/-- C2: `claim_fare(index, team)` fails — returning an error and leaving
the fare list and the team unchanged — when the index is out of range, the
fare at the index is not active, or the fare is already claimed; otherwise
it assigns the fare's `claimedBy` to the team and records that fare index
as the team's current fare.  Consequently of two claims on the same active
unclaimed index the first succeeds and the second observes
already-claimed. -/
theorem claim_fare_spec (fares : List Fare) (idx : ℕ) (t : Team) :
    (fares.length ≤ idx →
      claim_fare fares idx t = (some .outOfRange, fares, t))
    ∧ (∀ f, fares[idx]? = some f → f.isActive = false →
      claim_fare fares idx t = (some .notActive, fares, t))
    ∧ (∀ f, fares[idx]? = some f → f.isActive = true →
      f.claimedBy.isSome = true →
      claim_fare fares idx t = (some .alreadyClaimed, fares, t))
    ∧ (∀ f, fares[idx]? = some f → f.isActive = true → f.claimedBy = none →
      claim_fare fares idx t =
        (none, fares.set idx { f with claimedBy := some t.number },
          { t with currentFare := some idx }))
    ∧ (∀ t', (claim_fare fares idx t).1 = none →
      (claim_fare (claim_fare fares idx t).2.1 idx t').1
        = some .alreadyClaimed) := by
  refine ⟨?_, ?_, ?_, ?_, ?_⟩
  · intro hlen
    simp [claim_fare, List.getElem?_eq_none hlen]
  · intro f hf hact
    simp [claim_fare, hf, Fare.claim_fare, hact]
  · intro f hf hact hcl
    simp [claim_fare, hf, Fare.claim_fare, hact, hcl]
  · intro f hf hact hcl
    simp [claim_fare, hf, Fare.claim_fare, hact, hcl]
  · intro t' hnone
    cases hf : fares[idx]? with
    | none =>
      rw [claim_fare, hf] at hnone
      simp at hnone
    | some f =>
      rw [claim_fare, hf] at hnone
      by_cases hact : f.isActive = true
      · by_cases hcl : f.claimedBy.isSome = true
        · simp [Fare.claim_fare, hact, hcl] at hnone
        · have hclnone : f.claimedBy = none :=
            Option.not_isSome_iff_eq_none.mp hcl
          have hidx : idx < fares.length := by
            rcases List.getElem?_eq_some_iff.mp hf with ⟨h, _⟩
            exact h
          have hres : claim_fare fares idx t =
              (none, fares.set idx { f with claimedBy := some t.number },
                { t with currentFare := some idx }) := by
            simp [claim_fare, hf, Fare.claim_fare, hact, hclnone]
          rw [hres]
          have hget : (fares.set idx { f with claimedBy := some t.number })[idx]?
              = some { f with claimedBy := some t.number } :=
            List.getElem?_set_self (by simpa using hidx)
          rw [hact] at hget
          simp [claim_fare, hget, Fare.claim_fare, hact]
      · simp [Fare.claim_fare, Bool.eq_false_iff.mpr hact] at hnone

/-- Witness for C2: claiming the single active unclaimed fare at index 0
succeeds and records the claim; a second claim of the same index by
another team observes already-claimed. -/
theorem claim_fare_spec_witness :
    claim_fare [Fare.new ⟨0, 0⟩ ⟨3, 3⟩ .NORMAL] 0 (Team.new 4) =
      (none, [{ Fare.new ⟨0, 0⟩ ⟨3, 3⟩ .NORMAL with claimedBy := some 4 }],
        { Team.new 4 with currentFare := some 0 })
    ∧ (claim_fare (claim_fare [Fare.new ⟨0, 0⟩ ⟨3, 3⟩ .NORMAL] 0
        (Team.new 4)).2.1 0 (Team.new 9)).1 = some .alreadyClaimed := by
  have h := claim_fare_spec [Fare.new ⟨0, 0⟩ ⟨3, 3⟩ .NORMAL] 0 (Team.new 4)
  refine ⟨?_, ?_⟩
  · have := h.2.2.2.1 (Fare.new ⟨0, 0⟩ ⟨3, 3⟩ .NORMAL) rfl rfl rfl
    simpa using this
  · refine h.2.2.2.2 (Team.new 9) ?_
    have := h.2.2.2.1 (Fare.new ⟨0, 0⟩ ⟨3, 3⟩ .NORMAL) rfl rfl rfl
    rw [this]

/-- C7: the position-update batch is applied entry-by-entry in order
(appending an entry to a batch post-composes its application); on a
validated batch the handler is exactly this entry-by-entry application; an
entry for an unregistered team number is a no-op that cannot prevent later
entries from applying; an entry for a registered team overwrites exactly
that team's position and last-update timestamp; every other team's entry
is untouched. -/
theorem update_positions_spec (teams : Roster) (now : ℚ) (es : List JsonObj)
    (o : JsonObj) (m : ℤ) :
    (applyBatch teams now (es ++ [o])
      = applyEntry (applyBatch teams now es) now o)
    ∧ ((es ++ [o]).all validEntry = true →
      whereami_update teams now (es ++ [o]) = applyBatch teams now (es ++ [o]))
    ∧ (∀ q, getNum o "team" = some q → rosterHasNum teams q = false →
      applyEntry teams now o = teams)
    ∧ (∀ q x y t, getNum o "team" = some q → getNum o "x" = some x →
      getNum o "y" = some y → ((m : ℚ)) = q → teams.lookup m = some t →
      (applyEntry teams now o).lookup m
        = some (t.update_position ⟨x, y⟩ now))
    ∧ (∀ q, getNum o "team" = some q → ((m : ℚ)) ≠ q →
      (applyEntry teams now o).lookup m = teams.lookup m) := by
  refine ⟨?_, ?_, ?_, ?_, ?_⟩
  · simp [applyBatch, List.foldl_append]
  · intro hall
    simp [whereami_update, hall]
  · intro q hq hreg
    cases hx : getNum o "x" with
    | none => simp [applyEntry, hq, hx]
    | some x =>
      cases hy : getNum o "y" with
      | none => simp [applyEntry, hq, hx, hy]
      | some y => simp [applyEntry, hq, hx, hy, hreg]
  · intro q x y t hq hx hy hmq hlook
    have hmem : (m, t) ∈ teams := by
      rcases List.lookup_eq_some_iff.mp hlook with ⟨l₁, l₂, rfl, -⟩
      exact List.mem_append.mpr (Or.inr (List.Mem.head _))
    have hreg : rosterHasNum teams q = true := by
      unfold rosterHasNum
      rw [List.any_eq_true]
      exact ⟨(m, t), hmem, by simpa using hmq⟩
    have hbeq : ((m : ℚ) == q) = true := beq_iff_eq.mpr hmq
    simp only [applyEntry, hq, hx, hy, hreg, if_true]
    rw [lookup_map_update teams (fun v => v.update_position ⟨x, y⟩ now) q m,
      if_pos hbeq, hlook]
    rfl
  · intro q hq hmq
    have hbeq : ((m : ℚ) == q) = false := by simpa using hmq
    cases hx : getNum o "x" with
    | none => simp [applyEntry, hq, hx]
    | some x =>
      cases hy : getNum o "y" with
      | none => simp [applyEntry, hq, hx, hy]
      | some y =>
        cases hreg : rosterHasNum teams q with
        | false => simp [applyEntry, hq, hx, hy, hreg]
        | true =>
          simp only [applyEntry, hq, hx, hy, hreg, if_true]
          rw [lookup_map_update teams (fun v => v.update_position ⟨x, y⟩ now)
            q m, if_neg]
          simp [hbeq]

/-- Witness for C7: in a two-team roster, a batch of one entry for team 99
followed by one entry for the absent team -1 updates exactly team 99's
position and timestamp and leaves team 3 untouched. -/
theorem update_positions_spec_witness :
    (applyBatch [(99, Team.new 99), (3, Team.new 3)] 7
        ([[("team", .num 99), ("x", .num 1), ("y", .num 2)]]
          ++ [[("team", .num (-1)), ("x", .num 0), ("y", .num 0)]])
      = applyEntry (applyBatch [(99, Team.new 99), (3, Team.new 3)] 7
          [[("team", .num 99), ("x", .num 1), ("y", .num 2)]]) 7
        [[("team", .num (-1)), ("x", .num 0), ("y", .num 0)]].head!)
    ∧ applyEntry [(99, Team.new 99), (3, Team.new 3)] 7
        [("team", .num (-1)), ("x", .num 0), ("y", .num 0)]
      = [(99, Team.new 99), (3, Team.new 3)]
    ∧ (applyEntry [(99, Team.new 99), (3, Team.new 3)] 7
        [("team", .num 99), ("x", .num 1), ("y", .num 2)]).lookup 99
      = some ((Team.new 99).update_position ⟨1, 2⟩ 7)
    ∧ (applyEntry [(99, Team.new 99), (3, Team.new 3)] 7
        [("team", .num 99), ("x", .num 1), ("y", .num 2)]).lookup 3
      = ([(99, Team.new 99), (3, Team.new 3)] : Roster).lookup 3 := by
  have h99 := update_positions_spec [(99, Team.new 99), (3, Team.new 3)] 7
    [[("team", .num 99), ("x", .num 1), ("y", .num 2)]]
    [("team", .num (-1)), ("x", .num 0), ("y", .num 0)] 99
  have h3 := update_positions_spec [(99, Team.new 99), (3, Team.new 3)] 7 []
    [("team", .num 99), ("x", .num 1), ("y", .num 2)] 3
  have hupd := update_positions_spec [(99, Team.new 99), (3, Team.new 3)] 7 []
    [("team", .num 99), ("x", .num 1), ("y", .num 2)] 99
  exact ⟨h99.1, h99.2.2.1 (-1) rfl (by decide),
    hupd.2.2.2.1 99 1 2 (Team.new 99) rfl rfl rfl (by norm_num) rfl,
    h3.2.2.2.2 99 rfl (by norm_num)⟩

/-- C1: whenever `generate_fare` returns a fare — for any configured
nonnegative distance bounds, any fare list and any outcome of the random
draws — that fare's `src` and `dest` are distinct, the Euclidean distance
between them lies within `[min_dist, max_dist]`, and neither endpoint
coincides with the `src` or `dest` of any active fare in the input list. -/
theorem generate_fare_valid (min_dist max_dist : ℚ) (target : FareType → ℚ)
    (draws : ℕ → SpawnPoint × SpawnPoint) (roll : FareProbability → FareType)
    (existingFares : List Fare) (fare : Fare) (hmax : 0 ≤ max_dist)
    (hgen : generate_fare min_dist max_dist target draws roll existingFares
      = some fare) :
    fare.src ≠ fare.dest
    ∧ ((min_dist : ℝ)) ≤ Real.sqrt ((Point.dist2 fare.src fare.dest : ℚ) : ℝ)
    ∧ Real.sqrt ((Point.dist2 fare.src fare.dest : ℚ) : ℝ) ≤ ((max_dist : ℝ))
    ∧ ∀ f ∈ existingFares, f.isActive = true →
        fare.src ≠ f.src ∧ fare.src ≠ f.dest
          ∧ fare.dest ≠ f.src ∧ fare.dest ≠ f.dest := by
  unfold generate_fare at hgen
  cases hfind : (attemptList draws).find? (fun pr =>
      !pairRejected min_dist max_dist (activeEndpoints existingFares)
        pr.1 pr.2) with
  | none =>
    rw [hfind] at hgen
    exact absurd hgen (by simp)
  | some pr =>
    rw [hfind] at hgen
    obtain ⟨p1, p2⟩ := pr
    have hfare : fare = Fare.new p1.point p2.point
        (roll ((FareProbability.merge p1.biases p2.biases).reweight
          (prob_mul target existingFares))) := by
      exact (Option.some.injEq _ _ ▸ hgen).symm
    have hrej : pairRejected min_dist max_dist (activeEndpoints existingFares)
        p1 p2 = false := by
      have := List.find?_some hfind
      simpa using this
    rw [pairRejected] at hrej
    simp only [Bool.or_eq_false_iff, beq_eq_false_iff_ne, ne_eq,
      decide_eq_false_iff_not, not_lt] at hrej
    obtain ⟨⟨⟨⟨hne, hle_max⟩, hge_min⟩, hp1c⟩, hp2c⟩ := hrej
    have hp1 : p1.point ∉ activeEndpoints existingFares := by
      simpa [List.contains] using hp1c
    have hp2 : p2.point ∉ activeEndpoints existingFares := by
      simpa [List.contains] using hp2c
    have hsrc : fare.src = p1.point := by rw [hfare]; rfl
    have hdest : fare.dest = p2.point := by rw [hfare]; rfl
    refine ⟨?_, ?_, ?_, ?_⟩
    · rw [hsrc, hdest]; exact hne
    · rw [hsrc, hdest]
      apply Real.le_sqrt_of_sq_le
      exact_mod_cast hge_min
    · rw [hsrc, hdest]
      rw [Real.sqrt_le_left (by exact_mod_cast hmax)]
      exact_mod_cast hle_max
    · intro f hf hact
      refine ⟨?_, ?_, ?_, ?_⟩
      · rw [hsrc]
        intro he
        exact hp1 ((mem_activeEndpoints existingFares p1.point).mpr
          ⟨f, hf, hact, Or.inl he⟩)
      · rw [hsrc]
        intro he
        exact hp1 ((mem_activeEndpoints existingFares p1.point).mpr
          ⟨f, hf, hact, Or.inr he⟩)
      · rw [hdest]
        intro he
        exact hp2 ((mem_activeEndpoints existingFares p2.point).mpr
          ⟨f, hf, hact, Or.inl he⟩)
      · rw [hdest]
        intro he
        exact hp2 ((mem_activeEndpoints existingFares p2.point).mpr
          ⟨f, hf, hact, Or.inr he⟩)

/-- Witness for C1: with the `fare_gen.py` configuration, draws that pair
spawn point (0,0) with spawn point (3,3) against an empty fare list
produce a fare satisfying every guarantee. -/
theorem generate_fare_valid_witness :
    (Fare.new ⟨0, 0⟩ ⟨3, 3⟩ .NORMAL).src ≠ (Fare.new ⟨0, 0⟩ ⟨3, 3⟩ .NORMAL).dest
    ∧ ((DIST_MIN : ℝ)) ≤ Real.sqrt ((Point.dist2 (Fare.new ⟨0, 0⟩ ⟨3, 3⟩ .NORMAL).src
        (Fare.new ⟨0, 0⟩ ⟨3, 3⟩ .NORMAL).dest : ℚ) : ℝ)
    ∧ Real.sqrt ((Point.dist2 (Fare.new ⟨0, 0⟩ ⟨3, 3⟩ .NORMAL).src
        (Fare.new ⟨0, 0⟩ ⟨3, 3⟩ .NORMAL).dest : ℚ) : ℝ) ≤ ((DIST_MAX : ℝ))
    ∧ ∀ f ∈ ([] : List Fare), f.isActive = true →
        (Fare.new ⟨0, 0⟩ ⟨3, 3⟩ .NORMAL).src ≠ f.src
          ∧ (Fare.new ⟨0, 0⟩ ⟨3, 3⟩ .NORMAL).src ≠ f.dest
          ∧ (Fare.new ⟨0, 0⟩ ⟨3, 3⟩ .NORMAL).dest ≠ f.src
          ∧ (Fare.new ⟨0, 0⟩ ⟨3, 3⟩ .NORMAL).dest ≠ f.dest :=
  generate_fare_valid DIST_MIN DIST_MAX (targetProbabilities TARGET_FARES)
    (fun _ => (⟨⟨0, 0⟩, ⟨0, 0, 1⟩⟩, ⟨⟨3, 3⟩, {}⟩)) (fun _ => .NORMAL) []
    (Fare.new ⟨0, 0⟩ ⟨3, 3⟩ .NORMAL) (by norm_num [DIST_MAX])
    (generate_fare_first_accept DIST_MIN DIST_MAX
      (targetProbabilities TARGET_FARES)
      (fun _ => (⟨⟨0, 0⟩, ⟨0, 0, 1⟩⟩, ⟨⟨3, 3⟩, {}⟩)) (fun _ => .NORMAL) []
      0 (by norm_num) (fun j hj => absurd hj (Nat.not_lt_zero j))
      (by
        simp [pairRejected, Point.dist2, DIST_MIN, DIST_MAX, activeEndpoints]
        norm_num))

/-- C3: `generate_fare` examines at most the first 10 random draws (its
result is unchanged if the stream is altered beyond index 9), stops at the
first draw that passes the validity checks (returning the fare built from
that draw), and returns no fare exactly when each of the 10 attempted
draws is rejected. -/
theorem generate_fare_budget (min_dist max_dist : ℚ) (target : FareType → ℚ)
    (draws draws' : ℕ → SpawnPoint × SpawnPoint)
    (roll : FareProbability → FareType) (existingFares : List Fare) :
    ((∀ i, i < 10 → draws i = draws' i) →
      generate_fare min_dist max_dist target draws roll existingFares
        = generate_fare min_dist max_dist target draws' roll existingFares)
    ∧ (generate_fare min_dist max_dist target draws roll existingFares = none
      ↔ ∀ i, i < 10 → pairRejected min_dist max_dist
          (activeEndpoints existingFares) (draws i).1 (draws i).2 = true)
    ∧ (∀ i, i < 10 →
      (∀ j, j < i → pairRejected min_dist max_dist
        (activeEndpoints existingFares) (draws j).1 (draws j).2 = true) →
      pairRejected min_dist max_dist (activeEndpoints existingFares)
        (draws i).1 (draws i).2 = false →
      generate_fare min_dist max_dist target draws roll existingFares
        = some (Fare.new (draws i).1.point (draws i).2.point
          (roll ((FareProbability.merge (draws i).1.biases
              (draws i).2.biases).reweight
            (prob_mul target existingFares))))) := by
  refine ⟨?_, ?_, ?_⟩
  · intro hagree
    have hattempt : attemptList draws = attemptList draws' := by
      unfold attemptList
      apply List.map_congr_left
      intro i hi
      exact hagree i (List.mem_range.mp hi)
    simp only [generate_fare, hattempt]
  · constructor
    · intro hnone i hi
      cases hfind : (attemptList draws).find? (fun pr =>
          !pairRejected min_dist max_dist (activeEndpoints existingFares)
            pr.1 pr.2) with
      | none =>
        have hall := List.find?_eq_none.mp hfind
        have hmem : draws i ∈ attemptList draws := by
          unfold attemptList
          exact List.mem_map.mpr ⟨i, List.mem_range.mpr hi, rfl⟩
        have := hall (draws i) hmem
        simpa using this
      | some pr =>
        rw [generate_fare, hfind] at hnone
        obtain ⟨a, b⟩ := pr
        exact absurd hnone (by simp)
    · intro hall
      have hfind : (attemptList draws).find? (fun pr =>
          !pairRejected min_dist max_dist (activeEndpoints existingFares)
            pr.1 pr.2) = none := by
        rw [List.find?_eq_none]
        intro x hx
        rcases List.mem_map.mp hx with ⟨i, hi, rfl⟩
        simp [hall i (List.mem_range.mp hi)]
      rw [generate_fare, hfind]
  · intro i hi hbefore hacc
    exact generate_fare_first_accept min_dist max_dist target draws roll
      existingFares i hi hbefore hacc

/-- Witness for C3: a stream that always draws the same point twice is
rejected on all 10 attempts and yields no fare, while a stream whose first
draw is valid yields the fare built from that first draw. -/
theorem generate_fare_budget_witness :
    generate_fare DIST_MIN DIST_MAX (targetProbabilities TARGET_FARES)
      (fun _ => (⟨⟨0, 0⟩, ⟨0, 0, 1⟩⟩, ⟨⟨0, 0⟩, ⟨0, 0, 1⟩⟩)) (fun _ => .NORMAL)
      [] = none
    ∧ generate_fare DIST_MIN DIST_MAX (targetProbabilities TARGET_FARES)
      (fun _ => (⟨⟨0, 0⟩, ⟨0, 0, 1⟩⟩, ⟨⟨3, 3⟩, {}⟩)) (fun _ => .NORMAL) []
      = some (Fare.new ⟨0, 0⟩ ⟨3, 3⟩ .NORMAL) :=
  ⟨(generate_fare_budget DIST_MIN DIST_MAX (targetProbabilities TARGET_FARES)
      (fun _ => (⟨⟨0, 0⟩, ⟨0, 0, 1⟩⟩, ⟨⟨0, 0⟩, ⟨0, 0, 1⟩⟩))
      (fun _ => (⟨⟨0, 0⟩, ⟨0, 0, 1⟩⟩, ⟨⟨0, 0⟩, ⟨0, 0, 1⟩⟩)) (fun _ => .NORMAL)
      []).2.1.mpr (fun i hi => by simp [pairRejected]),
    (generate_fare_budget DIST_MIN DIST_MAX (targetProbabilities TARGET_FARES)
      (fun _ => (⟨⟨0, 0⟩, ⟨0, 0, 1⟩⟩, ⟨⟨3, 3⟩, {}⟩))
      (fun _ => (⟨⟨0, 0⟩, ⟨0, 0, 1⟩⟩, ⟨⟨3, 3⟩, {}⟩)) (fun _ => .NORMAL)
      []).2.2 0 (by norm_num) (fun j hj => absurd hj (Nat.not_lt_zero j))
      (by
        simp [pairRejected, Point.dist2, DIST_MIN, DIST_MAX, activeEndpoints]
        norm_num)⟩

end VPFS
